import Mathlib

/-!
Shallow embedding of the data layer of the TVUSVETLAUDOS application
(src/services/database.js and src/App.js): a SQLite-backed CRUD facade
for patients, exams, settings and templates, with JSON serialization of
the exams.exam_data column.

The embedded database engine is modelled as a pure state (`DBState`);
each facade method becomes a function on that state that mirrors the SQL
statement it issues.  `JSON.stringify` / `JSON.parse` are modelled by an
executable serializer and parser over a structured `Json` type.
-/

namespace TvusVet

/-- Structured JSON values, the payloads stored in exams.exam_data.
Numbers are modelled as integers (the structured payloads the claims
quantify over). -/
inductive Json where
  | null : Json
  | bool : Bool → Json
  | num : Int → Json
  | str : String → Json
  | arr : List Json → Json
  | obj : List (String × Json) → Json
deriving Repr

/-- JSON string escaping as performed by JSON.stringify. -/
def escChar (c : Char) : String :=
  if c = '"' then "\\\""
  else if c = '\\' then "\\\\"
  else if c = '\n' then "\\n"
  else if c = '\t' then "\\t"
  else if c = '\r' then "\\r"
  else String.singleton c

def escapeString (s : String) : String :=
  String.join (s.toList.map escChar)

mutual

/-- Model of JSON.stringify on structured values (no whitespace, as in JS). -/
def jsonStringify : Json → String
  | .null => "null"
  | .bool true => "true"
  | .bool false => "false"
  | .num n => toString n
  | .str s => "\"" ++ escapeString s ++ "\""
  | .arr xs => "[" ++ stringifyList xs ++ "]"
  | .obj kvs => "\x7b" ++ stringifyObj kvs ++ "\x7d"

def stringifyList : List Json → String
  | [] => ""
  | [x] => jsonStringify x
  | x :: y :: xs => jsonStringify x ++ "," ++ stringifyList (y :: xs)

def stringifyObj : List (String × Json) → String
  | [] => ""
  | [(k, v)] => "\"" ++ escapeString k ++ "\":" ++ jsonStringify v
  | (k, v) :: m :: ms =>
      "\"" ++ escapeString k ++ "\":" ++ jsonStringify v ++ "," ++ stringifyObj (m :: ms)

end

/-- Unescape the body of a JSON string literal, up to the closing quote. -/
def parseStrChars : Nat → List Char → List Char → Option (String × List Char)
  | 0, _, _ => none
  | _ + 1, _, [] => none
  | fuel + 1, acc, c :: rest =>
    if c = '"' then some (String.mk acc.reverse, rest)
    else if c = '\\' then
      match rest with
      | [] => none
      | e :: rest2 =>
        if e = '"' then parseStrChars fuel ( '"' :: acc) rest2
        else if e = '\\' then parseStrChars fuel ( '\\' :: acc) rest2
        else if e = '/' then parseStrChars fuel ( '/' :: acc) rest2
        else if e = 'n' then parseStrChars fuel ( '\n' :: acc) rest2
        else if e = 't' then parseStrChars fuel ( '\t' :: acc) rest2
        else if e = 'r' then parseStrChars fuel ( '\r' :: acc) rest2
        else none
    else parseStrChars fuel (c :: acc) rest

/-- Accumulate decimal digits. -/
def parseDigits (acc : Nat) : List Char → Nat × List Char
  | [] => (acc, [])
  | c :: cs =>
    if c.isDigit then parseDigits (acc * 10 + (c.toNat - 48)) cs
    else (acc, c :: cs)

/-- Parse a JSON integer literal. -/
def parseNum : List Char → Option (Int × List Char)
  | [] => none
  | c :: cs =>
    if c = '-' then
      match cs with
      | [] => none
      | d :: _ =>
        if d.isDigit then
          let p := parseDigits 0 cs
          some (-(p.1 : Int), p.2)
        else none
    else if c.isDigit then
      let p := parseDigits 0 (c :: cs)
      some ((p.1 : Int), p.2)
    else none

def skipWs : List Char → List Char
  | [] => []
  | c :: cs =>
    if c = ' ' ∨ c = '\n' ∨ c = '\t' ∨ c = '\r' then skipWs cs else c :: cs

mutual

/-- Fuel-based recursive-descent parser for JSON values. -/
def parseVal : Nat → List Char → Option (Json × List Char)
  | 0, _ => none
  | fuel + 1, cs =>
    match skipWs cs with
    | 'n' :: 'u' :: 'l' :: 'l' :: rest => some (.null, rest)
    | 't' :: 'r' :: 'u' :: 'e' :: rest => some (.bool true, rest)
    | 'f' :: 'a' :: 'l' :: 's' :: 'e' :: rest => some (.bool false, rest)
    | '"' :: rest =>
        (parseStrChars (rest.length + 1) [] rest).map (fun p => (.str p.1, p.2))
    | '[' :: rest =>
        (match skipWs rest with
         | ']' :: rest2 => some (.arr [], rest2)
         | rest2 => (parseElems fuel rest2).map (fun p => (.arr p.1, p.2)))
    | '\x7b' :: rest =>
        (match skipWs rest with
         | '\x7d' :: rest2 => some (.obj [], rest2)
         | rest2 => (parseMembers fuel rest2).map (fun p => (.obj p.1, p.2)))
    | rest => (parseNum rest).map (fun p => (.num p.1, p.2))

/-- Parse array elements after the opening bracket (nonempty case). -/
def parseElems : Nat → List Char → Option (List Json × List Char)
  | 0, _ => none
  | fuel + 1, cs => do
    let (v, rest) ← parseVal fuel cs
    match skipWs rest with
    | ',' :: rest2 => do
        let (vs, rest3) ← parseElems fuel rest2
        pure (v :: vs, rest3)
    | ']' :: rest2 => pure ([v], rest2)
    | _ => none

/-- Parse object members after the opening brace (nonempty case). -/
def parseMembers : Nat → List Char → Option (List (String × Json) × List Char)
  | 0, _ => none
  | fuel + 1, cs =>
    match skipWs cs with
    | '"' :: rest => do
        let (k, rest1) ← parseStrChars (rest.length + 1) [] rest
        match skipWs rest1 with
        | ':' :: rest2 => do
            let (v, rest3) ← parseVal fuel rest2
            (match skipWs rest3 with
             | ',' :: rest4 => do
                 let (ms, rest5) ← parseMembers fuel rest4
                 pure ((k, v) :: ms, rest5)
             | '\x7d' :: rest4 => pure ([(k, v)], rest4)
             | _ => none)
        | _ => none
    | _ => none

end

/-- Model of JSON.parse: `none` models the parse exception. -/
def jsonParse (s : String) : Option Json :=
  match parseVal (s.length + 1) s.toList with
  | some (v, rest) => if skipWs rest = [] then some v else none
  | none => none

/-- A structured payload survives JSON serialization when stringify/parse
round-trips it. -/
def roundTrips (j : Json) : Prop :=
  jsonParse (jsonStringify j) = some j

/-- The read path of getExamById: parse the stored text, substituting the
empty object on failure (the try/catch in the source). -/
def parseOrEmpty (s : String) : Json :=
  (jsonParse s).getD (Json.obj [])

/-! ## The SQLite state: the five tables of createTables

reference_values has no CRUD methods in the facade, so only its schema
declaration matters; it is omitted from the state. -/

/-- A row of the patients table. -/
structure PatientRow where
  id : Nat
  name : String
  species : String
  breed : String
  owner_name : String
  created_at : Nat
deriving Repr, DecidableEq

/-- A row of the exams table; exam_data is the stored TEXT column. -/
structure ExamRow where
  id : Nat
  patient_id : Nat
  exam_type : String
  exam_data : String
  created_at : Nat
  updated_at : Nat
deriving Repr, DecidableEq

/-- A row of the templates table. -/
structure TemplateRow where
  id : Nat
  name : String
  content : String
deriving Repr, DecidableEq

/-- The embedded database state.  settings rows are (key, value) pairs;
nextPatientId / nextExamId model the AUTOINCREMENT counters; now models
CURRENT_TIMESTAMP at the time of the next statement. -/
structure DBState where
  patients : List PatientRow
  exams : List ExamRow
  settings : List (String × String)
  templates : List TemplateRow
  nextPatientId : Nat
  nextExamId : Nat
  now : Nat
deriving Repr, DecidableEq

/-- Result descriptor of a successful INSERT (the plugin's execute result). -/
structure ExecResult where
  rowsAffected : Nat
  lastInsertId : Nat
deriving Repr, DecidableEq

/-! ## Facade CRUD methods (database.js) -/

/-- Input record for addPatient (name, species, breed, owner_name). -/
structure PatientInput where
  name : String
  species : String
  breed : String
  owner_name : String
deriving Repr, DecidableEq

/-- Comparison used by ORDER BY name ASC (SQLite BINARY collation;
UTF-8 byte order coincides with codepoint order). -/
def patientLe (a b : PatientRow) : Bool :=
  a.name ≤ b.name

/-- getPatients: SELECT * FROM patients ORDER BY name ASC. -/
def getPatients (s : DBState) : List PatientRow :=
  s.patients.mergeSort patientLe

/-- addPatient: INSERT INTO patients (name, species, breed, owner_name). -/
def addPatient (s : DBState) (p : PatientInput) : DBState × ExecResult :=
  ({ s with
      patients := s.patients ++
        [⟨s.nextPatientId, p.name, p.species, p.breed, p.owner_name, s.now⟩],
      nextPatientId := s.nextPatientId + 1 },
   ⟨1, s.nextPatientId⟩)

/-- Full patient record passed to updatePatient. -/
structure PatientUpd where
  id : Nat
  name : String
  species : String
  breed : String
  owner_name : String
deriving Repr, DecidableEq

/-- updatePatient: UPDATE patients SET name, species, breed, owner_name
WHERE id = ?.  Returns the new state and the number of rows affected. -/
def updatePatient (s : DBState) (p : PatientUpd) : DBState × Nat :=
  ({ s with
      patients := s.patients.map fun r =>
        if r.id = p.id then
          { r with name := p.name, species := p.species, breed := p.breed,
                   owner_name := p.owner_name }
        else r },
   s.patients.countP (fun r => r.id == p.id))

/-- deletePatient: DELETE FROM patients WHERE id = ?.  The declared
FOREIGN KEY ... ON DELETE CASCADE on exams deletes the exams of each
deleted patient row; the row count reported is that of the patients
table. -/
def deletePatient (s : DBState) (pid : Nat) : DBState × Nat :=
  let deletedIds := (s.patients.filter (fun p => p.id == pid)).map (·.id)
  ({ s with
      patients := s.patients.filter (fun p => !(p.id == pid)),
      exams := s.exams.filter (fun e => !(deletedIds.contains e.patient_id)) },
   s.patients.countP (fun p => p.id == pid))

/-- getExamsByPatientId: SELECT * FROM exams WHERE patient_id = ?.
The rows are returned as stored — exam_data stays serialized text. -/
def getExamsByPatientId (s : DBState) (pid : Nat) : List ExamRow :=
  s.exams.filter (fun e => e.patient_id == pid)

/-- Input record for addExam. -/
structure ExamInput where
  patient_id : Nat
  exam_type : String
  exam_data : Json
deriving Repr

/-- addExam: INSERT INTO exams (patient_id, exam_type, exam_data) with
exam_data = JSON.stringify(exam.exam_data).  The declared FOREIGN KEY
makes the insert fail (`none`, modelling the raised engine error) when
patient_id references no patient. -/
def addExam (s : DBState) (x : ExamInput) : Option (DBState × ExecResult) :=
  if s.patients.any (fun p => p.id == x.patient_id) then
    some
      ({ s with
          exams := s.exams ++
            [⟨s.nextExamId, x.patient_id, x.exam_type,
              jsonStringify x.exam_data, s.now, s.now⟩],
          nextExamId := s.nextExamId + 1 },
       ⟨1, s.nextExamId⟩)
  else none

/-- Record passed to updateExam (only id and exam_data are used). -/
structure ExamUpd where
  id : Nat
  exam_data : Json
deriving Repr

/-- updateExam: UPDATE exams SET exam_data = ?, updated_at =
CURRENT_TIMESTAMP WHERE id = ?. -/
def updateExam (s : DBState) (x : ExamUpd) : DBState × Nat :=
  ({ s with
      exams := s.exams.map fun r =>
        if r.id = x.id then
          { r with exam_data := jsonStringify x.exam_data, updated_at := s.now }
        else r },
   s.exams.countP (fun r => r.id == x.id))

/-- The exam record returned by getExamById: exam_data has been parsed
back into a structured value. -/
structure ExamView where
  id : Nat
  patient_id : Nat
  exam_type : String
  exam_data : Json
  created_at : Nat
  updated_at : Nat
deriving Repr

/-- getExamById: SELECT * FROM exams WHERE id = ?; if a row is found its
exam_data is JSON.parsed (empty object on failure) and the row returned;
otherwise null (`none`). -/
def getExamById (s : DBState) (eid : Nat) : Option ExamView :=
  match s.exams.filter (fun e => e.id == eid) with
  | [] => none
  | r :: _ =>
      some ⟨r.id, r.patient_id, r.exam_type, parseOrEmpty r.exam_data,
            r.created_at, r.updated_at⟩

/-- deleteExam: DELETE FROM exams WHERE id = ?. -/
def deleteExam (s : DBState) (eid : Nat) : DBState × Nat :=
  ({ s with exams := s.exams.filter (fun e => !(e.id == eid)) },
   s.exams.countP (fun e => e.id == eid))

/-- The JS object-assignment step of getSettings's fold:
settings[row.key] = row.value. -/
def objSet (m : List (String × String)) (k v : String) : List (String × String) :=
  if m.any (fun p => p.1 == k) then
    m.map (fun p => if p.1 = k then (k, v) else p)
  else
    m ++ [(k, v)]

/-- Lookup in the folded settings object. -/
def objGet (m : List (String × String)) (k : String) : Option String :=
  (m.find? (fun p => p.1 == k)).map (·.2)

/-- getSettings: SELECT * FROM settings, folded into an object
(settings[row.key] = row.value for each row). -/
def getSettings (s : DBState) : List (String × String) :=
  s.settings.foldl (fun m r => objSet m r.1 r.2) []

/-- saveSettings: INSERT OR REPLACE INTO settings (key, value): the
conflicting row (same primary key) is deleted and the new row inserted. -/
def saveSettings (s : DBState) (k v : String) : DBState × Nat :=
  ({ s with settings := s.settings.filter (fun p => !(p.1 == k)) ++ [(k, v)] }, 1)

/-- deleteTemplate: DELETE FROM templates WHERE id = ?. -/
def deleteTemplate (s : DBState) (tid : Nat) : DBState × Nat :=
  ({ s with templates := s.templates.filter (fun t => !(t.id == tid)) },
   s.templates.countP (fun t => t.id == tid))

/-! ## Schema initialization (createTables) and the application shell -/

/-- The five CREATE TABLE IF NOT EXISTS statements, in source order. -/
def createTablesStatements : List String :=
  ["patients", "exams", "settings", "templates", "reference_values"]

/-- Outcome of a createTables run: which statement indices were executed,
whether the catch block logged an error, and whether an error escaped to
the caller. -/
structure SchemaRun where
  attempted : List Nat
  errorLogged : Bool
  raised : Bool
deriving Repr, DecidableEq

/-- The for-loop over the statements inside the single try block: a
failing statement jumps to the catch, abandoning the rest of the loop. -/
def runSchemaLoop (fails : Nat → Bool) : List Nat → List Nat × Bool
  | [] => ([], false)
  | i :: rest =>
    if fails i then ([i], true)
    else
      let p := runSchemaLoop fails rest
      (i :: p.1, p.2)

/-- createTables, parameterized by which statement indices fail: the
whole loop sits in one try/catch whose catch only logs (never rethrows). -/
def createTables (fails : Nat → Bool) : SchemaRun :=
  let p := runSchemaLoop fails (List.range createTablesStatements.length)
  ⟨p.1, p.2, false⟩

/-- The methods defined on DatabaseService in database.js. -/
def databaseServiceMethods : List String :=
  ["open", "execute", "query", "createTables", "getPatients", "addPatient",
   "updatePatient", "deletePatient", "getExamsByPatientId", "addExam",
   "updateExam", "getExamById", "deleteExam", "getSettings", "saveSettings",
   "getTemplates", "addTemplate", "updateTemplate", "deleteTemplate"]

/-- The db methods App.js invokes at startup (the useEffect body runs
db.init()). -/
def appStartupCalls : List String :=
  ["init"]

/-- Referential integrity: every exam's patient_id references an existing
patient (the declared foreign key). -/
def FKinv (s : DBState) : Prop :=
  ∀ e ∈ s.exams, ∃ p ∈ s.patients, p.id = e.patient_id

/-! ## Concrete states used by the witnesses -/

/-- One patient (id 1), no exams. -/
def oneP : DBState :=
  ⟨[⟨1, "Rex", "dog", "srd", "Ana", 0⟩], [], [], [], 2, 1, 3⟩

/-- One patient (id 1) and one exam (id 1, well-formed payload). -/
def onePE : DBState :=
  ⟨[⟨1, "Rex", "dog", "srd", "Ana", 0⟩],
   [⟨1, 1, "xray", "null", 0, 0⟩], [], [], 2, 2, 3⟩

/-- One patient (id 1) and one exam whose stored exam_data is malformed. -/
def malformedE : DBState :=
  ⟨[⟨1, "Rex", "dog", "srd", "Ana", 0⟩],
   [⟨1, 1, "xray", "boom", 0, 0⟩], [], [], 2, 2, 3⟩

/-- A sample structured exam payload. -/
def examPayload : Json :=
  Json.obj [("notes", Json.str "clear"), ("count", Json.num 2)]

/-- A sample addExam input against oneP. -/
def examInput : ExamInput :=
  ⟨1, "xray", examPayload⟩

end TvusVet

namespace TvusVet

/-! ## Theorems -/

/-- C3: getExamById on an id matching no exam row returns null (`none`);
the model is total, so no error is raised. -/
theorem getExamById_missing_returns_null (s : DBState) (eid : Nat)
    (h : ∀ e ∈ s.exams, e.id ≠ eid) :
    getExamById s eid = none := by
  have hnil : s.exams.filter (fun e => e.id == eid) = [] :=
    List.filter_eq_nil_iff.mpr (by intro e he; simpa using h e he)
  simp [getExamById, hnil]

/-- Witness for C3 at a concrete state and id. -/
theorem getExamById_missing_returns_null_witness :
    getExamById onePE 7 = none :=
  getExamById_missing_returns_null onePE 7 (by simp [onePE])

/-- C8 (code bug): App.js's startup effect calls db.init(), but init is
not among the DatabaseService methods — createTables is never invoked at
startup even though it is a method and the source comments say App.js
calls it. -/
theorem app_startup_calls_undefined_init :
    appStartupCalls = ["init"] ∧
    "init" ∉ databaseServiceMethods ∧
    "createTables" ∈ databaseServiceMethods ∧
    "createTables" ∉ appStartupCalls := by
  refine ⟨rfl, ?_, ?_, ?_⟩ <;> decide

/-- C2 counterexample: when the first CREATE TABLE statement fails, the
error is not re-raised, but the remaining statements are NOT executed
(only statement 0 was attempted), contradicting the claim that the rest
of the sequence still runs. -/
theorem createTables_counterexample :
    ((fun i => i == 0) 0 = true) ∧
    (createTables (fun i => i == 0)).raised = false ∧
    (createTables (fun i => i == 0)).attempted = [0] ∧
    (createTables (fun i => i == 0)).attempted ≠
      List.range createTablesStatements.length := by
  refine ⟨rfl, rfl, rfl, ?_⟩
  decide

/-- C2 (amended): createTables never re-raises; if no statement fails all
five are executed and nothing is logged; if statement i is the first to
fail, execution stops right after i (statements i+1..4 are skipped) and
the error is logged. -/
theorem createTables_stops_at_first_failure (fails : Nat → Bool) :
    (createTables fails).raised = false ∧
    ((∀ i, i < 5 → fails i = false) →
      (createTables fails).attempted = [0, 1, 2, 3, 4] ∧
      (createTables fails).errorLogged = false) ∧
    (∀ i, i < 5 → fails i = true → (∀ j, j < i → fails j = false) →
      (createTables fails).attempted = List.range (i + 1) ∧
      (createTables fails).errorLogged = true) := by
  have hr : List.range createTablesStatements.length = [0, 1, 2, 3, 4] := rfl
  refine ⟨rfl, ?_, ?_⟩
  · intro h
    have h0 := h 0 (by omega); have h1 := h 1 (by omega)
    have h2 := h 2 (by omega); have h3 := h 3 (by omega)
    have h4 := h 4 (by omega)
    constructor <;>
      simp [createTables, hr, runSchemaLoop, h0, h1, h2, h3, h4]
  · intro i hi hfi hj
    interval_cases i
    · constructor <;> simp [createTables, hr, runSchemaLoop, hfi]
      rfl
    · have h0 := hj 0 (by omega)
      constructor <;> simp [createTables, hr, runSchemaLoop, hfi, h0]
      rfl
    · have h0 := hj 0 (by omega); have h1 := hj 1 (by omega)
      constructor <;> simp [createTables, hr, runSchemaLoop, hfi, h0, h1]
      rfl
    · have h0 := hj 0 (by omega); have h1 := hj 1 (by omega)
      have h2 := hj 2 (by omega)
      constructor <;> simp [createTables, hr, runSchemaLoop, hfi, h0, h1, h2]
      rfl
    · have h0 := hj 0 (by omega); have h1 := hj 1 (by omega)
      have h2 := hj 2 (by omega); have h3 := hj 3 (by omega)
      constructor <;> simp [createTables, hr, runSchemaLoop, hfi, h0, h1, h2, h3]
      rfl

/-- Witness for the amended C2: statement 2 fails first, so statements
0, 1, 2 are attempted, the error is logged, nothing is re-raised. -/
theorem createTables_stops_at_first_failure_witness :
    (createTables (fun i => i == 2)).raised = false ∧
    ((createTables (fun i => i == 2)).attempted = List.range 3 ∧
      (createTables (fun i => i == 2)).errorLogged = true) := by
  have h := createTables_stops_at_first_failure (fun i => i == 2)
  exact ⟨h.1, h.2.2 2 (by omega) (by decide) (by decide)⟩

/-- C10: the by-id mutations deletePatient, deleteExam, deleteTemplate
and updatePatient on an id matching no row resolve (no error in the
model) with zero rows affected and the state unchanged. -/
theorem missing_id_mutations_are_noops (s : DBState) (pid eid tid : Nat)
    (p : PatientUpd)
    (hp : ∀ r ∈ s.patients, r.id ≠ pid)
    (he : ∀ r ∈ s.exams, r.id ≠ eid)
    (ht : ∀ r ∈ s.templates, r.id ≠ tid)
    (hu : ∀ r ∈ s.patients, r.id ≠ p.id) :
    deletePatient s pid = (s, 0) ∧
    deleteExam s eid = (s, 0) ∧
    deleteTemplate s tid = (s, 0) ∧
    updatePatient s p = (s, 0) := by
  refine ⟨?_, ?_, ?_, ?_⟩
  · have hkeep : s.patients.filter (fun r => !(r.id == pid)) = s.patients :=
      List.filter_eq_self.mpr (by intro r hr; simpa using hp r hr)
    have hdel : s.patients.filter (fun r => r.id == pid) = [] :=
      List.filter_eq_nil_iff.mpr (by intro r hr; simpa using hp r hr)
    have hcnt : s.patients.countP (fun r => r.id == pid) = 0 :=
      List.countP_eq_zero.mpr (by intro r hr; simpa using hp r hr)
    simp [deletePatient, hkeep, hdel, hcnt]
  · have hkeep : s.exams.filter (fun r => !(r.id == eid)) = s.exams :=
      List.filter_eq_self.mpr (by intro r hr; simpa using he r hr)
    have hcnt : s.exams.countP (fun r => r.id == eid) = 0 :=
      List.countP_eq_zero.mpr (by intro r hr; simpa using he r hr)
    simp [deleteExam, hkeep, hcnt]
  · have hkeep : s.templates.filter (fun r => !(r.id == tid)) = s.templates :=
      List.filter_eq_self.mpr (by intro r hr; simpa using ht r hr)
    have hcnt : s.templates.countP (fun r => r.id == tid) = 0 :=
      List.countP_eq_zero.mpr (by intro r hr; simpa using ht r hr)
    simp [deleteTemplate, hkeep, hcnt]
  · have hmap : (s.patients.map fun r =>
        if r.id = p.id then
          { r with name := p.name, species := p.species, breed := p.breed,
                   owner_name := p.owner_name }
        else r) = s.patients := by
      conv_rhs => rw [← List.map_id s.patients]
      apply List.map_congr_left
      intro r hr
      simp [hu r hr]
    have hcnt : s.patients.countP (fun r => r.id == p.id) = 0 :=
      List.countP_eq_zero.mpr (by intro r hr; simpa using hu r hr)
    simp [updatePatient, hmap, hcnt]

/-- Witness for C10 on a concrete populated state and fresh ids. -/
theorem missing_id_mutations_are_noops_witness :
    deletePatient onePE 9 = (onePE, 0) ∧
    deleteExam onePE 9 = (onePE, 0) ∧
    deleteTemplate onePE 9 = (onePE, 0) ∧
    updatePatient onePE ⟨9, "Bob", "cat", "srd", "Zoe"⟩ = (onePE, 0) :=
  missing_id_mutations_are_noops onePE 9 9 9 ⟨9, "Bob", "cat", "srd", "Zoe"⟩
    (by simp [onePE]) (by simp [onePE]) (by simp [onePE]) (by simp [onePE])

/-- C9: updateExam rewrites the matching row's exam_data to the
serialized payload and its updated_at to the current timestamp, keeping
that row's id, patient_id, exam_type and created_at, leaving every row
with a different id unchanged and touching no other table. -/
theorem updateExam_frame (s : DBState) (x : ExamUpd) (r : ExamRow)
    (hr : r ∈ s.exams) :
    (r.id ≠ x.id → r ∈ (updateExam s x).1.exams) ∧
    (r.id = x.id →
      { r with exam_data := jsonStringify x.exam_data,
               updated_at := s.now } ∈ (updateExam s x).1.exams) ∧
    (updateExam s x).1.patients = s.patients ∧
    (updateExam s x).1.settings = s.settings ∧
    (updateExam s x).1.templates = s.templates ∧
    (updateExam s x).1.now = s.now := by
  refine ⟨?_, ?_, rfl, rfl, rfl, rfl⟩
  · intro hne
    have := List.mem_map_of_mem (f := fun q : ExamRow =>
      if q.id = x.id then
        { q with exam_data := jsonStringify x.exam_data, updated_at := s.now }
      else q) hr
    simpa [updateExam, hne] using this
  · intro heq
    have := List.mem_map_of_mem (f := fun q : ExamRow =>
      if q.id = x.id then
        { q with exam_data := jsonStringify x.exam_data, updated_at := s.now }
      else q) hr
    simpa [updateExam, heq] using this

/-- Witness for C9 on the concrete one-exam state. -/
theorem updateExam_frame_witness :
    ((⟨1, 1, "xray", "null", 0, 0⟩ : ExamRow).id ≠ (⟨1, examPayload⟩ : ExamUpd).id →
      (⟨1, 1, "xray", "null", 0, 0⟩ : ExamRow) ∈ (updateExam onePE ⟨1, examPayload⟩).1.exams) ∧
    ((⟨1, 1, "xray", "null", 0, 0⟩ : ExamRow).id = (⟨1, examPayload⟩ : ExamUpd).id →
      (⟨1, 1, "xray", jsonStringify examPayload, 0, onePE.now⟩ : ExamRow)
        ∈ (updateExam onePE ⟨1, examPayload⟩).1.exams) ∧
    (updateExam onePE ⟨1, examPayload⟩).1.patients = onePE.patients ∧
    (updateExam onePE ⟨1, examPayload⟩).1.settings = onePE.settings ∧
    (updateExam onePE ⟨1, examPayload⟩).1.templates = onePE.templates ∧
    (updateExam onePE ⟨1, examPayload⟩).1.now = onePE.now :=
  updateExam_frame onePE ⟨1, examPayload⟩ ⟨1, 1, "xray", "null", 0, 0⟩
    (by simp [onePE])

/-- C6: under referential integrity, after deletePatient(p) no exam with
patient_id = p remains: getExamsByPatientId returns the empty list (the
declared ON DELETE CASCADE removed the patient's exams). -/
theorem deletePatient_cascade_no_orphans (s : DBState) (pid : Nat)
    (hfk : FKinv s) :
    getExamsByPatientId (deletePatient s pid).1 pid = [] := by
  unfold getExamsByPatientId
  refine List.filter_eq_nil_iff.mpr ?_
  intro e he
  simp only [deletePatient] at he
  rw [List.mem_filter] at he
  obtain ⟨heS, hnc⟩ := he
  simp only [beq_iff_eq]
  intro hpe
  obtain ⟨q, hq, hqid⟩ := hfk e heS
  have hqf : q ∈ s.patients.filter (fun a => a.id == pid) := by
    rw [List.mem_filter]
    exact ⟨hq, by simp [hqid, hpe]⟩
  have hmem : e.patient_id ∈ (s.patients.filter (fun a => a.id == pid)).map (fun a => a.id) := by
    have := List.mem_map_of_mem (f := fun a : PatientRow => a.id) hqf
    simpa [hqid] using this
  have hc : (List.map (fun a => a.id)
      (List.filter (fun a => a.id == pid) s.patients)).contains e.patient_id = true :=
    List.elem_eq_true_of_mem hmem
  rw [hc] at hnc
  simp at hnc

/-- Witness for C6: the concrete patient-with-exam state. -/
theorem deletePatient_cascade_no_orphans_witness :
    getExamsByPatientId (deletePatient onePE 1).1 1 = [] :=
  deletePatient_cascade_no_orphans onePE 1
    (by intro e he; simp [onePE] at he; exact ⟨⟨1, "Rex", "dog", "srd", "Ana", 0⟩, by simp [onePE, he]⟩)

/-- Helper for C4: the JS assignment settings[k] = v makes a later read
of k return v, in the overwrite branch of objSet. -/
theorem find_map_overwrite (k v : String) :
    ∀ m : List (String × String), m.any (fun p => p.1 == k) = true →
      (m.map (fun p => if p.1 = k then (k, v) else p)).find? (fun p => p.1 == k) =
        some (k, v)
  | [], h => by simp at h
  | p :: ps, h => by
    by_cases hp : p.1 = k
    · simp [List.find?_cons, hp]
    · have h2 : ps.any (fun q => q.1 == k) = true := by
        rw [List.any_cons] at h
        simpa [hp] using h
      have ih := find_map_overwrite k v ps h2
      simpa [List.find?_cons, hp] using ih

/-- Helper for C4: after objSet m k v, reading k gives v. -/
theorem objGet_objSet_same (m : List (String × String)) (k v : String) :
    objGet (objSet m k v) k = some v := by
  unfold objSet objGet
  by_cases h : m.any (fun p => p.1 == k) = true
  · rw [if_pos h, find_map_overwrite k v m h]
    rfl
  · have hfalse : m.any (fun p => p.1 == k) = false :=
      Bool.eq_false_iff.mpr h
    have h2 : m.find? (fun p => p.1 == k) = none := by
      rw [List.find?_eq_none]
      intro p hp
      have := List.any_eq_false.mp hfalse p hp
      simpa using this
    rw [if_neg h, List.find?_append, h2]
    simp [List.find?_cons]

/-- C4: saveSettings k v1 then saveSettings k v2 leaves exactly one
settings row for k, and getSettings maps k to v2 (replace-on-conflict:
second write wins). -/
theorem saveSettings_upsert_last_write_wins (s : DBState) (k v1 v2 : String) :
    objGet (getSettings (saveSettings (saveSettings s k v1).1 k v2).1) k = some v2 ∧
    ((saveSettings (saveSettings s k v1).1 k v2).1.settings.countP
      (fun p => p.1 == k)) = 1 := by
  constructor
  · unfold getSettings
    simp only [saveSettings]
    rw [List.foldl_append]
    simpa using objGet_objSet_same _ k v2
  · simp only [saveSettings, List.countP_append]
    have h1 : ∀ l : List (String × String),
        (l.filter (fun p => !(p.1 == k))).countP (fun p => p.1 == k) = 0 := by
      intro l
      rw [List.countP_eq_zero]
      intro p hp
      rw [List.mem_filter] at hp
      simpa using hp.2
    rw [h1]
    simp [List.countP_cons]

/-- C5: after addPatient, getPatients contains a row with the new
patient's name, species, breed and owner_name, and the returned listing
is sorted by name in ascending order. -/
theorem addPatient_listed_and_sorted (s : DBState) (p : PatientInput) :
    (∃ r ∈ getPatients (addPatient s p).1,
        r.name = p.name ∧ r.species = p.species ∧ r.breed = p.breed ∧
        r.owner_name = p.owner_name) ∧
    (getPatients (addPatient s p).1).Pairwise (fun a b => a.name ≤ b.name) := by
  constructor
  · refine ⟨⟨s.nextPatientId, p.name, p.species, p.breed, p.owner_name, s.now⟩,
      ?_, rfl, rfl, rfl, rfl⟩
    simp [getPatients, addPatient]
  · have htrans : ∀ a b c : PatientRow,
        patientLe a b → patientLe b c → patientLe a c := by
      intro a b c hab hbc
      simp only [patientLe, decide_eq_true_eq] at *
      exact le_trans hab hbc
    have htotal : ∀ a b : PatientRow, patientLe a b || patientLe b a := by
      intro a b
      simp only [patientLe, Bool.or_eq_true, decide_eq_true_eq]
      exact le_total a.name b.name
    have h := List.sorted_mergeSort htrans htotal (addPatient s p).1.patients
    unfold getPatients
    exact h.imp (by intro a b hab; simpa [patientLe] using hab)

/-- C1: for a payload that survives JSON serialization, addExam followed
by getExamById on the inserted id returns an exam whose exam_data equals
the payload; and whenever the stored exam_data text is malformed,
getExamById returns the empty object instead of raising (the model is
total). -/
theorem addExam_roundtrip_and_malformed_default (s : DBState) (x : ExamInput)
    (hfk : s.patients.any (fun p => p.id == x.patient_id) = true)
    (hfresh : ∀ e ∈ s.exams, e.id ≠ s.nextExamId)
    (hrt : roundTrips x.exam_data) :
    (∃ s2 res, addExam s x = some (s2, res) ∧
       ∃ v, getExamById s2 res.lastInsertId = some v ∧
         v.exam_data = x.exam_data) ∧
    (∀ t eid v, (∀ e ∈ t.exams, jsonParse e.exam_data = none) →
       getExamById t eid = some v → v.exam_data = Json.obj []) := by
  constructor
  · refine ⟨{ s with
        exams := s.exams ++ [⟨s.nextExamId, x.patient_id, x.exam_type,
          jsonStringify x.exam_data, s.now, s.now⟩],
        nextExamId := s.nextExamId + 1 },
      ⟨1, s.nextExamId⟩, ?_, ?_⟩
    · unfold addExam
      rw [if_pos hfk]
    · have h1 : s.exams.filter (fun e => e.id == s.nextExamId) = [] :=
        List.filter_eq_nil_iff.mpr (by intro e he; simpa using hfresh e he)
      have hfilter : (s.exams ++ [(⟨s.nextExamId, x.patient_id, x.exam_type,
          jsonStringify x.exam_data, s.now, s.now⟩ : ExamRow)]).filter
            (fun e => e.id == s.nextExamId) =
          [⟨s.nextExamId, x.patient_id, x.exam_type,
            jsonStringify x.exam_data, s.now, s.now⟩] := by
        rw [List.filter_append, h1]
        simp [List.filter]
      refine ⟨⟨s.nextExamId, x.patient_id, x.exam_type,
        parseOrEmpty (jsonStringify x.exam_data), s.now, s.now⟩, ?_, ?_⟩
      · show getExamById _ s.nextExamId = _
        unfold getExamById
        rw [hfilter]
      · show parseOrEmpty (jsonStringify x.exam_data) = x.exam_data
        unfold parseOrEmpty
        rw [hrt]
        rfl
  · intro t eid v hall hv
    unfold getExamById at hv
    cases hq : t.exams.filter (fun e => e.id == eid) with
    | nil => rw [hq] at hv; exact absurd hv (by simp)
    | cons r rs =>
      rw [hq] at hv
      injection hv with hv
      have hrf : r ∈ t.exams.filter (fun e => e.id == eid) := by
        rw [hq]; exact List.mem_cons_self r rs
      have hr : r ∈ t.exams := (List.mem_filter.mp hrf).1
      rw [← hv]
      show parseOrEmpty r.exam_data = Json.obj []
      unfold parseOrEmpty
      rw [hall r hr]
      rfl

/-- Witness for C1: inserting a structured payload into the one-patient
state and reading it back through getExamById. -/
theorem addExam_roundtrip_and_malformed_default_witness :
    (∃ s2 res, addExam oneP examInput = some (s2, res) ∧
       ∃ v, getExamById s2 res.lastInsertId = some v ∧
         v.exam_data = examInput.exam_data) ∧
    (∀ t eid v, (∀ e ∈ t.exams, jsonParse e.exam_data = none) →
       getExamById t eid = some v → v.exam_data = Json.obj []) :=
  addExam_roundtrip_and_malformed_default oneP examInput rfl
    (by simp [oneP]) rfl

/-- C7 counterexample: the claim covers listExamsForPatient, but
getExamsByPatientId returns the stored text verbatim: on a row whose
stored exam_data is the malformed text "boom", the listing still carries
"boom" (and "boom" is not the serialization of the empty structure that
deserialization-with-default would have produced). -/
theorem examsList_raw_text_counterexample :
    jsonParse "boom" = none ∧
    (getExamsByPatientId malformedE 1).map (fun e => e.exam_data) = ["boom"] ∧
    jsonStringify (Json.obj []) ≠ "boom" := by
  refine ⟨rfl, rfl, ?_⟩
  decide

/-- C7 (amended): getExamById deserializes the stored exam_data text,
substituting the empty object when it is malformed; getExamsByPatientId
performs no deserialization and returns the exam rows exactly as stored. -/
theorem exam_read_deserialization (s : DBState) (eid pid : Nat) (v : ExamView)
    (h : getExamById s eid = some v) :
    (∃ r ∈ s.exams, r.id = eid ∧ v.exam_data = parseOrEmpty r.exam_data ∧
       (jsonParse r.exam_data = none → v.exam_data = Json.obj [])) ∧
    (∀ e ∈ getExamsByPatientId s pid, e ∈ s.exams) := by
  constructor
  · unfold getExamById at h
    cases hq : s.exams.filter (fun e => e.id == eid) with
    | nil => rw [hq] at h; exact absurd h (by simp)
    | cons r rs =>
      rw [hq] at h
      injection h with h
      have hrf : r ∈ s.exams.filter (fun e => e.id == eid) := by
        rw [hq]; exact List.mem_cons_self r rs
      have hmf := List.mem_filter.mp hrf
      refine ⟨r, hmf.1, by simpa using hmf.2, ?_, ?_⟩
      · rw [← h]
      · intro hn
        rw [← h]
        show parseOrEmpty r.exam_data = Json.obj []
        unfold parseOrEmpty
        rw [hn]
        rfl
  · intro e he
    exact (List.mem_filter.mp he).1

/-- Witness for the amended C7 at the malformed-payload state. -/
theorem exam_read_deserialization_witness :
    (∃ r ∈ malformedE.exams, r.id = 1 ∧
       (⟨1, 1, "xray", Json.obj [], 0, 0⟩ : ExamView).exam_data =
         parseOrEmpty r.exam_data ∧
       (jsonParse r.exam_data = none →
         (⟨1, 1, "xray", Json.obj [], 0, 0⟩ : ExamView).exam_data =
           Json.obj [])) ∧
    (∀ e ∈ getExamsByPatientId malformedE 1, e ∈ malformedE.exams) :=
  exam_read_deserialization malformedE 1 1 ⟨1, 1, "xray", Json.obj [], 0, 0⟩ rfl

end TvusVet
